import Mathlib

/-!
Verification of the real-time messaging namespace of the remind-clone web
server.  The socket handlers (`_newMessageHandler`,
`createNewGroupMessageHandler`, `createNewMessageHandler`,
`createNewSingleMessageHandler`) are embedded as pure functions from the
inbound payload, the invoked acknowledgment callback and an oracle of
database-service results to the ordered list of observable events the
handler performs: acknowledgment invocations, service calls, channel joins
and broadcasts.
-/

namespace RemindClone

/-- A user identity as carried in socket payloads: an id and a display name. -/
structure Sender where
  id : Nat
  name : String
deriving DecidableEq

/-- One entry of the receivers array of a CREATE_NEW_MESSAGE payload. -/
structure Receiver where
  id : Nat
  name : String
deriving DecidableEq

/-- An attachment object sent by the client.  The field `id` is absent until
the file service assigns one (the handler mutates `message.attachment.id`);
the remaining client-supplied fields are kept as one opaque payload. -/
structure Attachment where
  id : Option Nat
  payload : String
deriving DecidableEq

/-- JavaScript disjunction `a || b` for an optional boolean `a`, where
`undefined` and `false` are falsy: the result is `b` unless `a` holds the
truthy value `true`. -/
def jsOrBool : Option Bool → Bool → Bool
  | some true, _ => true
  | some false, b => b
  | none, b => b

/-- JavaScript disjunction `a || b` for optional strings, where `undefined`
and the empty string are falsy. -/
def jsOrStr : Option String → Option String → Option String
  | some s, b => if s = "" then b else some s
  | none, b => b

/-- The in-memory `broadcastMessage` object each handler builds, acks and
later broadcasts (with the persisted id attached). -/
structure BroadcastMessage where
  sender : Sender
  message : Option String
  messageText : Option String
  createdAt : String
  conversationId : Nat
  canReply : Bool
  attachment : Option Attachment
  id : Option Nat
deriving DecidableEq

/-- The record handed to `messageService.insertMessage`. -/
structure MessageRecord where
  sender_id : Nat
  conversation_id : Nat
  message : Option String
  message_text : Option String
  attachment_id : Option Nat
deriving DecidableEq

/-- The record handed to `messageService.createNewConversation`. -/
structure ConversationFields where
  type : String
  creator_id : Nat
  classroom_id : Nat
deriving DecidableEq

/-- The conversation object returned by `createNewConversation`, after the
handler possibly assigns `conversation_name` on it. -/
structure Conversation where
  id : Nat
  type : String
  creator_id : Nat
  classroom_id : Nat
  conversation_name : Option String
deriving DecidableEq

/-- Which function object an acknowledgment goes to: the no-op default that
JavaScript substitutes when the argument is omitted, or a caller-supplied
callback (distinguished by an arbitrary tag). -/
inductive Callback where
  | noop
  | caller (tag : Nat)
deriving DecidableEq

/-- Modelled from the spec: the socket event name constants
(`SocketIOEvent.message`) live in a config module that is not among the
sources; section 6 of the spec names the outbound events `NEW_MESSAGE` and
`FIRST_TIME_MESSAGE`. -/
inductive EventName where
  | NEW_MESSAGE
  | FIRST_TIME_MESSAGE
deriving DecidableEq

/-- Modelled from the spec: `SocketErrorMessage.DEFAULT` from the missing
config module; section 7 of the spec says all failures collapse to one
generic user-visible error, so its concrete text is one fixed constant. -/
def errorMsgDEFAULT : String := "DEFAULT"

/-- A broadcast payload: a bare message (NEW_MESSAGE) or the pair
`\x7b newMsg, newConvo \x7d` (FIRST_TIME_MESSAGE). -/
inductive Payload where
  | plain (msg : BroadcastMessage)
  | firstTime (newMsg : BroadcastMessage) (newConvo : Conversation)
deriving DecidableEq

/-- One observable action of a handler, in program order. -/
inductive Event where
  | ackOk (cb : Callback) (msg : BroadcastMessage)
  | ackErr (cb : Callback) (err : String)
  | insertFileCall (att : Attachment)
  | insertMessageCall (record : MessageRecord)
  | createConversationCall (fields : ConversationFields) (userIds : List Nat)
  | getTwoUsersConvoIdCall (userId receiverId classroomId : Nat)
  | joinConvoChannel (userIds : List Nat) (channel : String)
  | emit (channel : String) (name : EventName) (payload : Payload)
deriving DecidableEq

/-- The outcome of one awaited service call: the promise resolves with a
value or rejects. -/
inductive DbResult (α : Type) where
  | ok (val : α)
  | error
deriving DecidableEq

/-- Modelled from the spec: the persistence services (`messageService`,
`fileService`) are external collaborators whose code is not among the
sources (section 2 of the spec).  The observable outcome of each call the
handlers make is abstracted as a result: a generated id, a lookup answer,
or a rejection. -/
structure DbOracle where
  insertFileResult : DbResult Nat
  insertMessageResult : DbResult Nat
  createNewConversationResult : DbResult Nat
  getTwoUsersConvoIdResult : DbResult (Option Nat)
deriving DecidableEq

/-- The NEW_MESSAGE inbound payload (also the object the single-conversation
handler builds when delegating). -/
structure NewMessageInput where
  sender : Sender
  message : Option String
  messageText : Option String
  createdAt : String
  conversationId : Nat
  canReply : Option Bool
  attachment : Option Attachment
deriving DecidableEq

/-- The CREATE_NEW_MESSAGE inbound payload. -/
structure CreateNewMessageInput where
  sender : Sender
  message : Option String
  messageText : Option String
  createdAt : String
  canReply : Option Bool
  attachment : Option Attachment
  classroomId : Nat
  receivers : List Receiver
deriving DecidableEq

/-- The channel name `user#id`. -/
def userChannel (id : Nat) : String := "user#" ++ toString id

/-- The channel name `convo#id`. -/
def convoChannel (id : Nat) : String := "convo#" ++ toString id

/-- The guarded success ack `if (fn) fn(null, broadcastMessage)` for the
handlers whose `fn` parameter has no default and may be `undefined`. -/
def ackOkIf : Option Callback → BroadcastMessage → List Event
  | some cb, msg => [Event.ackOk cb msg]
  | none, _ => []

/-- The guarded error ack `if (fn) fn(new Error(errorMsg.DEFAULT))`. -/
def ackErrIf : Option Callback → List Event
  | some cb => [Event.ackErr cb errorMsgDEFAULT]
  | none => []

/-- Lines 85 to 94 of the namespace file: insert the message and broadcast
the stored copy.  `att` is `message.attachment` at this point, already
patched with the file id when a file was inserted; the broadcast copy
aliases that same object, so it carries the patch. -/
def newMessageInsertPhase (m : NewMessageInput) (fn : Callback)
    (db : DbOracle) (broadcastMessage : BroadcastMessage)
    (att : Option Attachment) : List Event :=
  Event.insertMessageCall
      { sender_id := m.sender.id
        conversation_id := m.conversationId
        message := jsOrStr m.message m.messageText
        message_text := m.messageText
        attachment_id := match att with | some a => a.id | none => none } ::
    match db.insertMessageResult with
    | DbResult.error => [Event.ackErr fn errorMsgDEFAULT]
    | DbResult.ok msgId =>
        [Event.emit (convoChannel m.conversationId) EventName.NEW_MESSAGE
          (Payload.plain
            { broadcastMessage with id := some msgId, attachment := att })]

/-- Lines 80 to 98: the try block after the provisional ack: resolve the
attachment when present (patching its id), then insert and broadcast; any
rejection falls to the catch, which answers with the generic error. -/
def newMessagePersistPhase (m : NewMessageInput) (fn : Callback)
    (db : DbOracle) (broadcastMessage : BroadcastMessage) : List Event :=
  match m.attachment with
  | some att =>
      Event.insertFileCall att ::
        (match db.insertFileResult with
         | DbResult.error => [Event.ackErr fn errorMsgDEFAULT]
         | DbResult.ok fileId =>
             newMessageInsertPhase m fn db broadcastMessage
               (some { id := some fileId, payload := att.payload }))
  | none => newMessageInsertPhase m fn db broadcastMessage none

/-- Lines 67 to 99: the NEW_MESSAGE handler.  It builds the outbound
message, acknowledges at once, then resolves the attachment, persists the
message and broadcasts the stored copy to the conversation channel.  When
the caller omits `fn`, JavaScript substitutes a no-op function, so the acks
in this handler always fire (modelled by `fn = Callback.noop`). -/
def _newMessageHandler (m : NewMessageInput) (fn : Callback)
    (db : DbOracle) : List Event :=
  let broadcastMessage : BroadcastMessage :=
    { sender := m.sender
      message := jsOrStr m.message m.messageText
      messageText := m.messageText
      createdAt := m.createdAt
      conversationId := m.conversationId
      canReply := jsOrBool m.canReply true
      attachment := m.attachment
      id := none }
  Event.ackOk fn broadcastMessage ::
    newMessagePersistPhase m fn db broadcastMessage

/-- Lines 115 to 187: the group-conversation handler.  It always creates a
new group conversation for sender plus receivers, names it "New Group",
joins all live user connections to the new channel, acks, inserts the
message and broadcasts one FIRST_TIME_MESSAGE to the conversation channel. -/
def createNewGroupMessageHandler (data : CreateNewMessageInput)
    (fn : Option Callback) (db : DbOracle) : List Event :=
  let receiverIds := data.receivers.map Receiver.id
  let allUserIds := data.sender.id :: receiverIds
  Event.createConversationCall
      { type := "group"
        creator_id := data.sender.id
        classroom_id := data.classroomId } allUserIds ::
    match db.createNewConversationResult with
    | DbResult.error => ackErrIf fn
    | DbResult.ok newConvoId =>
        let newConvo : Conversation :=
          { id := newConvoId
            type := "group"
            creator_id := data.sender.id
            classroom_id := data.classroomId
            conversation_name := some "New Group" }
        let broadcastMessage : BroadcastMessage :=
          { sender := data.sender
            message := jsOrStr data.message data.messageText
            messageText := data.messageText
            createdAt := data.createdAt
            conversationId := newConvoId
            canReply := jsOrBool data.canReply true
            attachment := data.attachment
            id := none }
        Event.joinConvoChannel allUserIds (convoChannel newConvoId) ::
          (ackOkIf fn broadcastMessage ++
            (Event.insertMessageCall
                { sender_id := data.sender.id
                  conversation_id := newConvoId
                  message := jsOrStr data.message data.messageText
                  message_text := data.messageText
                  attachment_id :=
                    match data.attachment with
                    | some a => a.id
                    | none => none } ::
              match db.insertMessageResult with
              | DbResult.error => ackErrIf fn
              | DbResult.ok msgId =>
                  [Event.emit (convoChannel newConvoId)
                    EventName.FIRST_TIME_MESSAGE
                    (Payload.firstTime
                      { broadcastMessage with id := some msgId } newConvo)]))

/-- Lines 199 to 299: the single-conversation handler.  It looks up an
existing single conversation for the pair; when one exists it delegates to
`_newMessageHandler` WITHOUT forwarding `fn` (line 224 passes no second
argument, so the delegate runs with the default no-op callback); otherwise
it creates a single conversation, joins the two users, acks, inserts the
message and emits FIRST_TIME_MESSAGE to each user channel with the swapped
display names. -/
def createNewSingleMessageHandler (data : CreateNewMessageInput)
    (fn : Option Callback) (db : DbOracle) : List Event :=
  let receiverIds := data.receivers.map Receiver.id
  let receiverId := receiverIds.headD 0
  Event.getTwoUsersConvoIdCall data.sender.id receiverId data.classroomId ::
    match db.getTwoUsersConvoIdResult with
    | DbResult.error => ackErrIf fn
    | DbResult.ok (some convoIdIfExist) =>
        _newMessageHandler
          { sender := data.sender
            message := data.message
            messageText := data.messageText
            createdAt := data.createdAt
            conversationId := convoIdIfExist
            canReply := data.canReply
            attachment := data.attachment }
          Callback.noop db
    | DbResult.ok none =>
        let allUserIds := [data.sender.id, receiverId]
        Event.createConversationCall
            { type := "single"
              creator_id := data.sender.id
              classroom_id := data.classroomId } allUserIds ::
          match db.createNewConversationResult with
          | DbResult.error => ackErrIf fn
          | DbResult.ok newConvoId =>
              let newConvo : Conversation :=
                { id := newConvoId
                  type := "single"
                  creator_id := data.sender.id
                  classroom_id := data.classroomId
                  conversation_name := none }
              let broadcastMessage : BroadcastMessage :=
                { sender := data.sender
                  message := jsOrStr data.message data.messageText
                  messageText := data.messageText
                  createdAt := data.createdAt
                  conversationId := newConvoId
                  canReply := jsOrBool data.canReply true
                  attachment := data.attachment
                  id := none }
              Event.joinConvoChannel allUserIds (convoChannel newConvoId) ::
                (ackOkIf fn broadcastMessage ++
                  (Event.insertMessageCall
                      { sender_id := data.sender.id
                        conversation_id := newConvoId
                        message := jsOrStr data.message data.messageText
                        message_text := data.messageText
                        attachment_id :=
                          match data.attachment with
                          | some a => a.id
                          | none => none } ::
                    match db.insertMessageResult with
                    | DbResult.error => ackErrIf fn
                    | DbResult.ok msgId =>
                        let receiver := data.receivers.headD { id := 0, name := "" }
                        [Event.emit (userChannel data.sender.id)
                          EventName.FIRST_TIME_MESSAGE
                          (Payload.firstTime
                            { broadcastMessage with id := some msgId }
                            { newConvo with
                                conversation_name := some receiver.name }),
                         Event.emit (userChannel receiver.id)
                          EventName.FIRST_TIME_MESSAGE
                          (Payload.firstTime
                            { broadcastMessage with id := some msgId }
                            { newConvo with
                                conversation_name := some data.sender.name })]))

/-- Lines 189 to 197: the CREATE_NEW_MESSAGE dispatcher: exactly one
receiver goes to the single-conversation handler, anything else to the
group handler. -/
def createNewMessageHandler (data : CreateNewMessageInput)
    (fn : Option Callback) (db : DbOracle) : List Event :=
  if data.receivers.length = 1 then
    createNewSingleMessageHandler data fn db
  else
    createNewGroupMessageHandler data fn db

/-- Whether an event is an outbound broadcast. -/
def Event.isEmit : Event → Bool
  | Event.emit _ _ _ => true
  | _ => false

/-- The message representations an event carries to clients (success acks
and broadcasts). -/
def eventMessages : Event → List BroadcastMessage
  | Event.ackOk _ m => [m]
  | Event.emit _ _ (Payload.plain m) => [m]
  | Event.emit _ _ (Payload.firstTime m _) => [m]
  | _ => []

/-- The callback an acknowledgment event invokes, when the event is one. -/
def ackCallback : Event → Option Callback
  | Event.ackOk cb _ => some cb
  | Event.ackErr cb _ => some cb
  | _ => none

/-- Whether an event is a conversation-creation service call. -/
def isCreateConversationCall : Event → Bool
  | Event.createConversationCall _ _ => true
  | _ => false

/-- Whether an event is an existing-conversation lookup call. -/
def isLookupCall : Event → Bool
  | Event.getTwoUsersConvoIdCall _ _ _ => true
  | _ => false

/-- Whether an event is a file-service (attachment) call. -/
def isInsertFileCall : Event → Bool
  | Event.insertFileCall _ => true
  | _ => false

/-- The attachment id as the new-conversation paths read it straight off
the input object, with no file-service patch. -/
def attachmentInputId : Option Attachment → Option Nat
  | some a => a.id
  | none => none

/-- The message representation inside a broadcast payload. -/
def payloadMessage : Payload → BroadcastMessage
  | Payload.plain m => m
  | Payload.firstTime m _ => m

/-- Whether an event is an error acknowledgment. -/
def isAckErr : Event → Bool
  | Event.ackErr _ _ => true
  | _ => false

/-- A concrete sender for concrete evaluations. -/
def exSender : Sender := { id := 1, name := "A" }

/-- A concrete receiver. -/
def exReceiver : Receiver := { id := 2, name := "B" }

/-- A second concrete receiver. -/
def exReceiverC : Receiver := { id := 3, name := "C" }

/-- A concrete attachment with no client-side id. -/
def exAttachment : Attachment := { id := none, payload := "photo" }

/-- A concrete NEW_MESSAGE payload with an explicit canReply = false. -/
def exMsg : NewMessageInput :=
  { sender := exSender
    message := some "hi"
    messageText := some "hi"
    createdAt := "t0"
    conversationId := 7
    canReply := some false
    attachment := none }

/-- The same NEW_MESSAGE payload carrying an attachment. -/
def exMsgAtt : NewMessageInput :=
  { exMsg with attachment := some exAttachment }

/-- A concrete CREATE_NEW_MESSAGE payload with one receiver. -/
def exData : CreateNewMessageInput :=
  { sender := exSender
    message := some "hi"
    messageText := some "hi"
    createdAt := "t0"
    canReply := some false
    attachment := none
    classroomId := 9
    receivers := [exReceiver] }

/-- The one-receiver payload carrying an attachment. -/
def exDataAtt : CreateNewMessageInput :=
  { exData with attachment := some exAttachment }

/-- A CREATE_NEW_MESSAGE payload with two receivers. -/
def exDataTwo : CreateNewMessageInput :=
  { exData with receivers := [exReceiver, exReceiverC] }

/-- A CREATE_NEW_MESSAGE payload with no receiver at all. -/
def exDataZero : CreateNewMessageInput :=
  { exData with receivers := [] }

/-- An oracle on which every call succeeds and the pair has no existing
conversation. -/
def exDbNew : DbOracle :=
  { insertFileResult := DbResult.ok 11
    insertMessageResult := DbResult.ok 21
    createNewConversationResult := DbResult.ok 31
    getTwoUsersConvoIdResult := DbResult.ok none }

/-- An oracle on which every call succeeds and the lookup finds the
existing conversation 5. -/
def exDbExisting : DbOracle :=
  { exDbNew with getTwoUsersConvoIdResult := DbResult.ok (some 5) }

/-- An oracle on which message insertion rejects. -/
def exDbMsgFail : DbOracle :=
  { exDbNew with insertMessageResult := DbResult.error }

/-- An oracle on which message insertion rejects and the lookup finds the
existing conversation 5. -/
def exDbMsgFailExisting : DbOracle :=
  { exDbExisting with insertMessageResult := DbResult.error }

/-- An oracle on which file insertion rejects. -/
def exDbFileFail : DbOracle :=
  { exDbNew with insertFileResult := DbResult.error }

/-- An oracle on which both file and message insertion reject, while the
lookup finds the existing conversation 5. -/
def exDbAllFail : DbOracle :=
  { insertFileResult := DbResult.error
    insertMessageResult := DbResult.error
    createNewConversationResult := DbResult.ok 31
    getTwoUsersConvoIdResult := DbResult.ok (some 5) }

/-- The message representation the NEW_MESSAGE handler builds from `exMsg`
before persistence. -/
def exB : BroadcastMessage :=
  { sender := exSender
    message := some "hi"
    messageText := some "hi"
    createdAt := "t0"
    conversationId := 7
    canReply := true
    attachment := none
    id := none }

end RemindClone

namespace RemindClone

theorem jsOrBool_true (c : Option Bool) : jsOrBool c true = true := by
  rcases c with _ | b
  · rfl
  · cases b <;> rfl

theorem canReply_insertPhase (m : NewMessageInput) (fn : Callback)
    (db : DbOracle) (B : BroadcastMessage) (att : Option Attachment) :
    ∀ e ∈ newMessageInsertPhase m fn db B att, ∀ bm ∈ eventMessages e,
      bm.canReply = B.canReply := by
  intro e he bm hbm
  cases h : db.insertMessageResult <;>
    simp only [newMessageInsertPhase, h, List.mem_cons, List.not_mem_nil,
      or_false] at he <;>
    rcases he with rfl | rfl <;>
    simp [eventMessages] at hbm <;>
    simp [hbm]

theorem canReply_persistPhase (m : NewMessageInput) (fn : Callback)
    (db : DbOracle) (B : BroadcastMessage) :
    ∀ e ∈ newMessagePersistPhase m fn db B, ∀ bm ∈ eventMessages e,
      bm.canReply = B.canReply := by
  intro e he bm hbm
  cases ha : m.attachment with
  | none =>
      simp only [newMessagePersistPhase, ha] at he
      exact canReply_insertPhase m fn db B none e he bm hbm
  | some att =>
      simp only [newMessagePersistPhase, ha] at he
      cases hf : db.insertFileResult <;>
        simp only [hf, List.mem_cons, List.not_mem_nil, or_false] at he
      · rcases he with rfl | he
        · simp [eventMessages] at hbm
        · exact canReply_insertPhase m fn db B _ e he bm hbm
      · rcases he with rfl | rfl <;> simp [eventMessages] at hbm

theorem canReply_newMessageHandler (m : NewMessageInput) (fn : Callback)
    (db : DbOracle) :
    ∀ e ∈ _newMessageHandler m fn db, ∀ bm ∈ eventMessages e,
      bm.canReply = true := by
  intro e he bm hbm
  simp only [_newMessageHandler, List.mem_cons] at he
  rcases he with rfl | he
  · simp [eventMessages] at hbm
    simp [hbm, jsOrBool_true]
  · have := canReply_persistPhase m fn db _ e he bm hbm
    simpa [jsOrBool_true] using this

theorem canReply_newMessage_flat (m : NewMessageInput) (fn : Callback)
    (db : DbOracle) (bm : BroadcastMessage) :
    bm ∈ (_newMessageHandler m fn db).flatMap eventMessages →
      bm.canReply = true := by
  intro h
  rw [List.mem_flatMap] at h
  obtain ⟨e, he, hbm⟩ := h
  exact canReply_newMessageHandler m fn db e he bm hbm

theorem canReply_group (data : CreateNewMessageInput) (fno : Option Callback)
    (db : DbOracle) (bm : BroadcastMessage) :
    bm ∈ (createNewGroupMessageHandler data fno db).flatMap eventMessages →
      bm.canReply = true := by
  intro h
  cases hc : db.createNewConversationResult <;>
    cases hm : db.insertMessageResult <;>
    cases fno <;>
    simp [createNewGroupMessageHandler, hc, hm, ackOkIf, ackErrIf,
      eventMessages] at h <;>
    rcases h with rfl | rfl <;> simp [jsOrBool_true]

theorem canReply_single (data : CreateNewMessageInput) (fno : Option Callback)
    (db : DbOracle) (bm : BroadcastMessage) :
    bm ∈ (createNewSingleMessageHandler data fno db).flatMap eventMessages →
      bm.canReply = true := by
  intro h
  cases hg : db.getTwoUsersConvoIdResult with
  | error =>
      cases fno <;>
        simp [createNewSingleMessageHandler, hg, ackErrIf, eventMessages] at h
  | ok o =>
      cases o with
      | some cid =>
          simp only [createNewSingleMessageHandler, hg, List.flatMap_cons,
            eventMessages, List.nil_append] at h
          exact canReply_newMessage_flat _ _ _ _ h
      | none =>
          cases hc : db.createNewConversationResult <;>
            cases hm : db.insertMessageResult <;>
            cases fno <;>
            simp [createNewSingleMessageHandler, hg, hc, hm, ackOkIf, ackErrIf,
              eventMessages] at h <;>
            rcases h with rfl | rfl <;> simp [jsOrBool_true]

/-- C1: on all three send paths, every message representation handed to the
acknowledgment callback or broadcast to a channel carries canReply = true,
whatever the inbound canReply field held; in particular the modelled
JavaScript expression canReply or-else true evaluates to true for every
input, so an explicit canReply = false still yields canReply = true. -/
theorem C1_canReply_forced_true (m : NewMessageInput)
    (data : CreateNewMessageInput) (fn : Callback) (fno : Option Callback)
    (db : DbOracle) (bm : BroadcastMessage) :
    (∀ c : Option Bool, jsOrBool c true = true) ∧
    (bm ∈ (_newMessageHandler m fn db).flatMap eventMessages →
      bm.canReply = true) ∧
    (bm ∈ (createNewSingleMessageHandler data fno db).flatMap eventMessages →
      bm.canReply = true) ∧
    (bm ∈ (createNewGroupMessageHandler data fno db).flatMap eventMessages →
      bm.canReply = true) :=
  ⟨jsOrBool_true, canReply_newMessage_flat m fn db bm,
   canReply_single data fno db bm, canReply_group data fno db bm⟩

/-- Witness for C1 at a concrete input whose canReply is the explicit value
false: the acknowledged message still carries canReply = true. -/
theorem C1_canReply_forced_true_witness :
    exB ∈ (_newMessageHandler exMsg (Callback.caller 7) exDbNew).flatMap
        eventMessages ∧ exB.canReply = true :=
  ⟨by decide,
   (C1_canReply_forced_true exMsg exData (Callback.caller 7)
      (some (Callback.caller 7)) exDbNew exB).2.1 (by decide)⟩

end RemindClone

namespace RemindClone

/-- C2: at a concrete single-receiver send whose pair has an existing
conversation (lookup answers conversation 5), the caller-supplied callback
with tag 7 never receives any acknowledgment: the delegation on line 224
passes no callback, so every ack of the run goes to the substituted no-op
function, both when persistence succeeds (one success ack) and when it
rejects (a success ack then an error ack).  The claimed preservation of the
caller ack contract fails. -/
theorem C2_caller_callback_never_acked :
    ((createNewSingleMessageHandler exData (some (Callback.caller 7))
        exDbExisting).filterMap ackCallback = [Callback.noop]) ∧
    ((createNewSingleMessageHandler exData (some (Callback.caller 7))
        exDbMsgFailExisting).filterMap ackCallback =
      [Callback.noop, Callback.noop]) := by
  decide

/-- C3 counterexample: at a concrete new-conversation single send carrying
an attachment, the handler makes no file-service call at all and persists
the message with attachment_id none (the unpatched client value), while the
existing-conversation handler given the same message does call the file
service and persists the patched durable id 11.  The claimed equivalence of
the new-conversation persistence with path 4.3 steps 1 to 4 is false. -/
theorem C3_counterexample :
    ((createNewSingleMessageHandler exDataAtt (some (Callback.caller 7))
        exDbNew).filter isInsertFileCall = []) ∧
    (Event.insertMessageCall ⟨1, 31, some "hi", some "hi", none⟩ ∈
      createNewSingleMessageHandler exDataAtt (some (Callback.caller 7))
        exDbNew) ∧
    ((_newMessageHandler exMsgAtt (Callback.caller 7) exDbNew).filter
        isInsertFileCall = [Event.insertFileCall exAttachment]) ∧
    (Event.insertMessageCall ⟨1, 7, some "hi", some "hi", some 11⟩ ∈
      _newMessageHandler exMsgAtt (Callback.caller 7) exDbNew) := by
  decide

/-- C3 amended: on the new-conversation paths (single with no existing
conversation, and group) the attachment is never resolved through the file
service; the message is persisted with attachment_id read directly off the
input attachment, unpatched.  Persistence is otherwise as in 4.3. -/
theorem C3_amended_no_attachment_resolution (data : CreateNewMessageInput)
    (fn : Option Callback) (db : DbOracle) :
    ((createNewGroupMessageHandler data fn db).filter isInsertFileCall = [] ∧
     ∀ mr, Event.insertMessageCall mr ∈
         createNewGroupMessageHandler data fn db →
       mr.attachment_id = attachmentInputId data.attachment) ∧
    (db.getTwoUsersConvoIdResult = DbResult.ok none →
      (createNewSingleMessageHandler data fn db).filter isInsertFileCall = [] ∧
      ∀ mr, Event.insertMessageCall mr ∈
          createNewSingleMessageHandler data fn db →
        mr.attachment_id = attachmentInputId data.attachment) := by
  constructor
  · constructor
    · cases hc : db.createNewConversationResult <;>
        cases hm : db.insertMessageResult <;>
        cases fn <;>
        simp [createNewGroupMessageHandler, hc, hm, ackOkIf, ackErrIf,
          List.filter_cons, List.filter_append, isInsertFileCall]
    · intro mr hmr
      cases hc : db.createNewConversationResult <;>
        cases hm : db.insertMessageResult <;>
        cases fn <;>
        simp [createNewGroupMessageHandler, hc, hm, ackOkIf, ackErrIf] at hmr <;>
        cases ha : data.attachment <;>
        simp [ha] at hmr <;>
        simp [hmr, attachmentInputId, ha]
  · intro hg
    constructor
    · cases hc : db.createNewConversationResult <;>
        cases hm : db.insertMessageResult <;>
        cases fn <;>
        simp [createNewSingleMessageHandler, hg, hc, hm, ackOkIf, ackErrIf,
          List.filter_cons, List.filter_append, isInsertFileCall]
    · intro mr hmr
      cases hc : db.createNewConversationResult <;>
        cases hm : db.insertMessageResult <;>
        cases fn <;>
        simp [createNewSingleMessageHandler, hg, hc, hm, ackOkIf,
          ackErrIf] at hmr <;>
        cases ha : data.attachment <;>
        simp [ha] at hmr <;>
        simp [hmr, attachmentInputId, ha]

/-- Witness for the amended C3 at a concrete attachment-carrying send: the
single and group new-conversation traces contain no file-service call and
their persisted records keep the unpatched input attachment id (none). -/
theorem C3_amended_no_attachment_resolution_witness :
    (createNewSingleMessageHandler exDataAtt (some (Callback.caller 7))
        exDbNew).filter isInsertFileCall = [] ∧
    MessageRecord.attachment_id ⟨1, 31, some "hi", some "hi", none⟩ =
      attachmentInputId exDataAtt.attachment ∧
    MessageRecord.attachment_id ⟨1, 31, some "hi", some "hi", none⟩ =
      attachmentInputId exDataAtt.attachment :=
  ⟨((C3_amended_no_attachment_resolution exDataAtt (some (Callback.caller 7))
      exDbNew).2 rfl).1,
   ((C3_amended_no_attachment_resolution exDataAtt (some (Callback.caller 7))
      exDbNew).2 rfl).2 ⟨1, 31, some "hi", some "hi", none⟩ (by decide),
   (C3_amended_no_attachment_resolution exDataAtt (some (Callback.caller 7))
      exDbNew).1.2 ⟨1, 31, some "hi", some "hi", none⟩ (by decide)⟩

end RemindClone

namespace RemindClone

/-- C4: on the existing-conversation path the first observable action is the
success acknowledgment, whose message representation has no persisted id,
and every broadcast the handler ever performs carries a message whose id is
the one message persistence generated. -/
theorem C4_provisional_ack_then_persisted_id (m : NewMessageInput)
    (fn : Callback) (db : DbOracle) :
    ((_newMessageHandler m fn db).head? = some (Event.ackOk fn
      ⟨m.sender, jsOrStr m.message m.messageText, m.messageText, m.createdAt,
       m.conversationId, jsOrBool m.canReply true, m.attachment, none⟩)) ∧
    (∀ ch nm p, Event.emit ch nm p ∈ _newMessageHandler m fn db →
      (payloadMessage p).id.isSome = true ∧
      db.insertMessageResult = DbResult.ok ((payloadMessage p).id.getD 0)) := by
  constructor
  · rfl
  · intro ch nm p hp
    cases ha : m.attachment <;>
      cases hf : db.insertFileResult <;>
      cases hm : db.insertMessageResult <;>
      simp [_newMessageHandler, newMessagePersistPhase, newMessageInsertPhase,
        ha, hf, hm] at hp
    all_goals obtain ⟨h1, h2, h3⟩ := hp
    all_goals subst h3
    all_goals simp [payloadMessage, hm]

/-- Witness for C4: at a concrete send the broadcast payload carries a
present id that is exactly the id persistence generated (21). -/
theorem C4_provisional_ack_then_persisted_id_witness :
    (payloadMessage (Payload.plain { exB with id := some 21 })).id.isSome =
      true ∧
    exDbNew.insertMessageResult = DbResult.ok
      ((payloadMessage (Payload.plain { exB with id := some 21 })).id.getD 0) :=
  (C4_provisional_ack_then_persisted_id exMsg (Callback.caller 7) exDbNew).2
    (convoChannel 7) EventName.NEW_MESSAGE
    (Payload.plain { exB with id := some 21 }) (by decide)

theorem filterEmit_newMessage_msgFail (m : NewMessageInput) (fn : Callback)
    (db : DbOracle) (hmsg : db.insertMessageResult = DbResult.error) :
    (_newMessageHandler m fn db).filter Event.isEmit = [] := by
  cases ha : m.attachment <;> cases hf : db.insertFileResult <;>
    simp [_newMessageHandler, newMessagePersistPhase, newMessageInsertPhase,
      ha, hf, hmsg, List.filter_cons, Event.isEmit]

theorem ackErr_newMessage_msgFail (m : NewMessageInput) (fn : Callback)
    (db : DbOracle) (hmsg : db.insertMessageResult = DbResult.error) :
    Event.ackErr fn errorMsgDEFAULT ∈ _newMessageHandler m fn db := by
  cases ha : m.attachment <;> cases hf : db.insertFileResult <;>
    simp [_newMessageHandler, newMessagePersistPhase, newMessageInsertPhase,
      ha, hf, hmsg]

/-- C5: when message persistence rejects, none of the three paths performs
any broadcast; an acknowledgment with the one generic error message is
invoked (on the single path it may go to the substituted no-op callback);
and on the existing-conversation path the provisional success ack stays the
first event of the run, unretracted.  The same holds on the
existing-conversation path when attachment resolution rejects. -/
theorem C5_failure_aborts_broadcast (m : NewMessageInput)
    (data : CreateNewMessageInput) (fn cb : Callback) (db : DbOracle) :
    (db.insertMessageResult = DbResult.error →
      ((_newMessageHandler m fn db).filter Event.isEmit = [] ∧
       Event.ackErr fn errorMsgDEFAULT ∈ _newMessageHandler m fn db ∧
       (_newMessageHandler m fn db).head? = some (Event.ackOk fn
         ⟨m.sender, jsOrStr m.message m.messageText, m.messageText,
          m.createdAt, m.conversationId, jsOrBool m.canReply true,
          m.attachment, none⟩) ∧
       (createNewGroupMessageHandler data (some cb) db).filter Event.isEmit
         = [] ∧
       Event.ackErr cb errorMsgDEFAULT ∈
         createNewGroupMessageHandler data (some cb) db ∧
       (createNewSingleMessageHandler data (some cb) db).filter Event.isEmit
         = [] ∧
       (∃ cb2, Event.ackErr cb2 errorMsgDEFAULT ∈
         createNewSingleMessageHandler data (some cb) db))) ∧
    (∀ att, m.attachment = some att → db.insertFileResult = DbResult.error →
      ((_newMessageHandler m fn db).filter Event.isEmit = [] ∧
       Event.ackErr fn errorMsgDEFAULT ∈ _newMessageHandler m fn db ∧
       (_newMessageHandler m fn db).head? = some (Event.ackOk fn
         ⟨m.sender, jsOrStr m.message m.messageText, m.messageText,
          m.createdAt, m.conversationId, jsOrBool m.canReply true,
          m.attachment, none⟩))) := by
  constructor
  · intro hmsg
    refine ⟨filterEmit_newMessage_msgFail m fn db hmsg,
      ackErr_newMessage_msgFail m fn db hmsg, rfl, ?_, ?_, ?_, ?_⟩
    · cases hc : db.createNewConversationResult <;>
        simp [createNewGroupMessageHandler, hc, hmsg, ackOkIf, ackErrIf,
          List.filter_cons, List.filter_append, Event.isEmit]
    · cases hc : db.createNewConversationResult <;>
        simp [createNewGroupMessageHandler, hc, hmsg, ackOkIf, ackErrIf]
    · cases hg : db.getTwoUsersConvoIdResult with
      | error =>
          simp [createNewSingleMessageHandler, hg, ackErrIf,
            List.filter_cons, Event.isEmit]
      | ok o =>
          cases o with
          | some cid =>
              simp only [createNewSingleMessageHandler, hg, List.filter_cons,
                Event.isEmit, Bool.false_eq_true, if_false]
              exact filterEmit_newMessage_msgFail _ _ _ hmsg
          | none =>
              cases hc : db.createNewConversationResult <;>
                simp [createNewSingleMessageHandler, hg, hc, hmsg, ackOkIf,
                  ackErrIf, List.filter_cons, List.filter_append, Event.isEmit]
    · cases hg : db.getTwoUsersConvoIdResult with
      | error =>
          exact ⟨cb, by simp [createNewSingleMessageHandler, hg, ackErrIf]⟩
      | ok o =>
          cases o with
          | some cid =>
              refine ⟨Callback.noop, ?_⟩
              simp only [createNewSingleMessageHandler, hg, List.mem_cons]
              exact Or.inr (ackErr_newMessage_msgFail _ _ _ hmsg)
          | none =>
              refine ⟨cb, ?_⟩
              cases hc : db.createNewConversationResult <;>
                simp [createNewSingleMessageHandler, hg, hc, hmsg, ackOkIf,
                  ackErrIf]
  · intro att ha hf
    refine ⟨?_, ?_, rfl⟩ <;>
      simp [_newMessageHandler, newMessagePersistPhase, ha, hf,
        List.filter_cons, Event.isEmit]

/-- Witness for C5 at concrete failing oracles: the error acks are present
and no broadcast event occurs in the existing-conversation trace. -/
theorem C5_failure_aborts_broadcast_witness :
    Event.ackErr (Callback.caller 7) errorMsgDEFAULT ∈
      _newMessageHandler exMsgAtt (Callback.caller 7) exDbAllFail ∧
    Event.ackErr (Callback.caller 8) errorMsgDEFAULT ∈
      createNewGroupMessageHandler exData (some (Callback.caller 8))
        exDbAllFail ∧
    (_newMessageHandler exMsgAtt (Callback.caller 7) exDbAllFail).filter
      Event.isEmit = [] :=
  ⟨((C5_failure_aborts_broadcast exMsgAtt exData (Callback.caller 7)
      (Callback.caller 8) exDbAllFail).2 exAttachment rfl rfl).2.1,
   ((C5_failure_aborts_broadcast exMsgAtt exData (Callback.caller 7)
      (Callback.caller 8) exDbAllFail).1 rfl).2.2.2.2.1,
   ((C5_failure_aborts_broadcast exMsgAtt exData (Callback.caller 7)
      (Callback.caller 8) exDbAllFail).2 exAttachment rfl rfl).1⟩

end RemindClone

namespace RemindClone

/-- C6: the CREATE_NEW_MESSAGE dispatcher runs the single-conversation
handler exactly when the receivers list has one element, and the group
handler when it has two or more. -/
theorem C6_dispatch_on_receiver_count (data : CreateNewMessageInput)
    (fn : Option Callback) (db : DbOracle) :
    (data.receivers.length = 1 →
      createNewMessageHandler data fn db =
        createNewSingleMessageHandler data fn db) ∧
    (2 ≤ data.receivers.length →
      createNewMessageHandler data fn db =
        createNewGroupMessageHandler data fn db) := by
  constructor
  · intro h
    simp [createNewMessageHandler, h]
  · intro h
    have hne : data.receivers.length ≠ 1 := by omega
    simp [createNewMessageHandler, hne]

/-- Witness for C6 at one concrete one-receiver payload and one concrete
two-receiver payload. -/
theorem C6_dispatch_on_receiver_count_witness :
    createNewMessageHandler exData (some (Callback.caller 7)) exDbNew =
      createNewSingleMessageHandler exData (some (Callback.caller 7))
        exDbNew ∧
    createNewMessageHandler exDataTwo (some (Callback.caller 7)) exDbNew =
      createNewGroupMessageHandler exDataTwo (some (Callback.caller 7))
        exDbNew :=
  ⟨(C6_dispatch_on_receiver_count exData (some (Callback.caller 7))
      exDbNew).1 (by decide),
   (C6_dispatch_on_receiver_count exDataTwo (some (Callback.caller 7))
      exDbNew).2 (by decide)⟩

/-- C7: a successful single-receiver send that creates a new conversation
broadcasts exactly two FIRST_TIME_MESSAGE events: one to the user channel
of the sender whose conversation object is named after the receiver, and
one to the user channel of the receiver whose conversation object is named
after the sender, both carrying the persisted message. -/
theorem C7_first_time_swapped_names (data : CreateNewMessageInput)
    (r : Receiver) (fn : Option Callback) (db : DbOracle) (cid mid : Nat)
    (hr : data.receivers = [r])
    (hg : db.getTwoUsersConvoIdResult = DbResult.ok none)
    (hc : db.createNewConversationResult = DbResult.ok cid)
    (hm : db.insertMessageResult = DbResult.ok mid) :
    (createNewSingleMessageHandler data fn db).filter Event.isEmit =
      [Event.emit (userChannel data.sender.id) EventName.FIRST_TIME_MESSAGE
        (Payload.firstTime
          ⟨data.sender, jsOrStr data.message data.messageText,
           data.messageText, data.createdAt, cid,
           jsOrBool data.canReply true, data.attachment, some mid⟩
          ⟨cid, "single", data.sender.id, data.classroomId, some r.name⟩),
       Event.emit (userChannel r.id) EventName.FIRST_TIME_MESSAGE
        (Payload.firstTime
          ⟨data.sender, jsOrStr data.message data.messageText,
           data.messageText, data.createdAt, cid,
           jsOrBool data.canReply true, data.attachment, some mid⟩
          ⟨cid, "single", data.sender.id, data.classroomId,
           some data.sender.name⟩)] := by
  cases fn <;>
    simp [createNewSingleMessageHandler, hr, hg, hc, hm, ackOkIf,
      Event.isEmit, List.filter_cons, List.filter_append]

/-- Witness for C7 at the concrete sender A (id 1) and receiver B (id 2):
the two broadcast conversation objects carry the swapped names B and A. -/
theorem C7_first_time_swapped_names_witness :
    (createNewSingleMessageHandler exData (some (Callback.caller 7))
        exDbNew).filter Event.isEmit =
      [Event.emit (userChannel exData.sender.id)
        EventName.FIRST_TIME_MESSAGE
        (Payload.firstTime
          ⟨exData.sender, jsOrStr exData.message exData.messageText,
           exData.messageText, exData.createdAt, 31,
           jsOrBool exData.canReply true, exData.attachment, some 21⟩
          ⟨31, "single", exData.sender.id, exData.classroomId,
           some exReceiver.name⟩),
       Event.emit (userChannel exReceiver.id)
        EventName.FIRST_TIME_MESSAGE
        (Payload.firstTime
          ⟨exData.sender, jsOrStr exData.message exData.messageText,
           exData.messageText, exData.createdAt, 31,
           jsOrBool exData.canReply true, exData.attachment, some 21⟩
          ⟨31, "single", exData.sender.id, exData.classroomId,
           some exData.sender.name⟩)] :=
  C7_first_time_swapped_names exData exReceiver (some (Callback.caller 7))
    exDbNew 31 21 rfl rfl rfl rfl

/-- C8: on every dispatch with two or more receivers the group handler
always issues one conversation-creation call of type group over the sender
and all receivers and never performs an existing-conversation lookup (for
every oracle); on a successful oracle it broadcasts exactly one
FIRST_TIME_MESSAGE, to the new conversation channel, carrying the persisted
message together with the conversation object named "New Group". -/
theorem C8_group_always_creates (data : CreateNewMessageInput)
    (fn : Option Callback) (db : DbOracle) (cid mid : Nat)
    (hlen : 2 ≤ data.receivers.length)
    (hc : db.createNewConversationResult = DbResult.ok cid)
    (hm : db.insertMessageResult = DbResult.ok mid) :
    (∀ db2 : DbOracle,
      Event.createConversationCall
          ⟨"group", data.sender.id, data.classroomId⟩
          (data.sender.id :: data.receivers.map Receiver.id) ∈
        createNewMessageHandler data fn db2 ∧
      (createNewMessageHandler data fn db2).filter isLookupCall = []) ∧
    ((createNewMessageHandler data fn db).filter Event.isEmit =
      [Event.emit (convoChannel cid) EventName.FIRST_TIME_MESSAGE
        (Payload.firstTime
          ⟨data.sender, jsOrStr data.message data.messageText,
           data.messageText, data.createdAt, cid,
           jsOrBool data.canReply true, data.attachment, some mid⟩
          ⟨cid, "group", data.sender.id, data.classroomId,
           some "New Group"⟩)]) := by
  have hne : data.receivers.length ≠ 1 := by omega
  constructor
  · intro db2
    constructor
    · simp [createNewMessageHandler, hne, createNewGroupMessageHandler]
    · cases hc2 : db2.createNewConversationResult <;>
        cases hm2 : db2.insertMessageResult <;>
        cases fn <;>
        simp [createNewMessageHandler, hne, createNewGroupMessageHandler,
          hc2, hm2, ackOkIf, ackErrIf, List.filter_cons, List.filter_append,
          isLookupCall]
  · cases fn <;>
      simp [createNewMessageHandler, hne, createNewGroupMessageHandler,
        hc, hm, ackOkIf, Event.isEmit, List.filter_cons, List.filter_append]

/-- Witness for C8 at the concrete two-receiver payload: the creation call
covers sender 1 and receivers 2 and 3, no lookup happens, and one broadcast
goes to the new conversation channel with the name "New Group". -/
theorem C8_group_always_creates_witness :
    (Event.createConversationCall
        ⟨"group", exDataTwo.sender.id, exDataTwo.classroomId⟩
        (exDataTwo.sender.id :: exDataTwo.receivers.map Receiver.id) ∈
      createNewMessageHandler exDataTwo (some (Callback.caller 7)) exDbNew) ∧
    (createNewMessageHandler exDataTwo (some (Callback.caller 7))
      exDbNew).filter isLookupCall = [] ∧
    (createNewMessageHandler exDataTwo (some (Callback.caller 7))
        exDbNew).filter Event.isEmit =
      [Event.emit (convoChannel 31) EventName.FIRST_TIME_MESSAGE
        (Payload.firstTime
          ⟨exDataTwo.sender, jsOrStr exDataTwo.message exDataTwo.messageText,
           exDataTwo.messageText, exDataTwo.createdAt, 31,
           jsOrBool exDataTwo.canReply true, exDataTwo.attachment, some 21⟩
          ⟨31, "group", exDataTwo.sender.id, exDataTwo.classroomId,
           some "New Group"⟩)] :=
  ⟨((C8_group_always_creates exDataTwo (some (Callback.caller 7)) exDbNew
      31 21 (by decide) rfl rfl).1 exDbNew).1,
   ((C8_group_always_creates exDataTwo (some (Callback.caller 7)) exDbNew
      31 21 (by decide) rfl rfl).1 exDbNew).2,
   (C8_group_always_creates exDataTwo (some (Callback.caller 7)) exDbNew
      31 21 (by decide) rfl rfl).2⟩

end RemindClone

namespace RemindClone

theorem noCreate_newMessage (m : NewMessageInput) (fn : Callback)
    (db : DbOracle) :
    (_newMessageHandler m fn db).filter isCreateConversationCall = [] := by
  cases ha : m.attachment <;> cases hf : db.insertFileResult <;>
    cases hm : db.insertMessageResult <;>
    simp [_newMessageHandler, newMessagePersistPhase, newMessageInsertPhase,
      ha, hf, hm, List.filter_cons, isCreateConversationCall]

theorem insertConvId_newMessage (m : NewMessageInput) (fn : Callback)
    (db : DbOracle) :
    ∀ mr, Event.insertMessageCall mr ∈ _newMessageHandler m fn db →
      mr.conversation_id = m.conversationId := by
  intro mr hmr
  cases ha : m.attachment <;> cases hf : db.insertFileResult <;>
    cases hm : db.insertMessageResult <;>
    simp [_newMessageHandler, newMessagePersistPhase, newMessageInsertPhase,
      ha, hf, hm] at hmr <;>
    simp [hmr]

theorem insertMem_newMessage (m : NewMessageInput) (fn : Callback)
    (db : DbOracle) :
    (m.attachment = none →
      Event.insertMessageCall
          ⟨m.sender.id, m.conversationId, jsOrStr m.message m.messageText,
           m.messageText, none⟩ ∈ _newMessageHandler m fn db) ∧
    (∀ att fid, m.attachment = some att →
      db.insertFileResult = DbResult.ok fid →
      Event.insertMessageCall
          ⟨m.sender.id, m.conversationId, jsOrStr m.message m.messageText,
           m.messageText, some fid⟩ ∈ _newMessageHandler m fn db) := by
  constructor
  · intro ha
    cases hm : db.insertMessageResult <;>
      simp [_newMessageHandler, newMessagePersistPhase, newMessageInsertPhase,
        ha, hm]
  · intro att fid ha hf
    cases hm : db.insertMessageResult <;>
      simp [_newMessageHandler, newMessagePersistPhase, newMessageInsertPhase,
        ha, hf, hm]

/-- C9: on a single-receiver send whose lookup finds an existing
conversation, the conversation store receives no creation call, every
message-insertion record uses the found conversation id, and (when the send
carries no attachment, or its attachment resolves to a file id) the
insertion call with that conversation id is actually made. -/
theorem C9_existing_conversation_reused (data : CreateNewMessageInput)
    (r : Receiver) (cid : Nat) (fn : Option Callback) (db : DbOracle)
    (hr : data.receivers = [r])
    (hg : db.getTwoUsersConvoIdResult = DbResult.ok (some cid)) :
    ((createNewSingleMessageHandler data fn db).filter
      isCreateConversationCall = []) ∧
    (∀ mr, Event.insertMessageCall mr ∈
        createNewSingleMessageHandler data fn db →
      mr.conversation_id = cid) ∧
    (data.attachment = none →
      Event.insertMessageCall
          ⟨data.sender.id, cid, jsOrStr data.message data.messageText,
           data.messageText, none⟩ ∈
        createNewSingleMessageHandler data fn db) ∧
    (∀ att fid, data.attachment = some att →
      db.insertFileResult = DbResult.ok fid →
      Event.insertMessageCall
          ⟨data.sender.id, cid, jsOrStr data.message data.messageText,
           data.messageText, some fid⟩ ∈
        createNewSingleMessageHandler data fn db) := by
  refine ⟨?_, ?_, ?_, ?_⟩
  · simp only [createNewSingleMessageHandler, hg, List.filter_cons,
      isCreateConversationCall, Bool.false_eq_true, if_false]
    exact noCreate_newMessage _ _ _
  · intro mr hmr
    simp only [createNewSingleMessageHandler, hg, List.mem_cons] at hmr
    rcases hmr with h | hmr
    · exact absurd h (by simp)
    · exact insertConvId_newMessage _ _ _ mr hmr
  · intro ha
    simp only [createNewSingleMessageHandler, hg, List.mem_cons]
    exact Or.inr ((insertMem_newMessage _ Callback.noop db).1 ha)
  · intro att fid ha hf
    simp only [createNewSingleMessageHandler, hg, List.mem_cons]
    exact Or.inr ((insertMem_newMessage _ Callback.noop db).2 att fid ha hf)

/-- Witness for C9 at the concrete one-receiver send with existing
conversation 5: no creation call, and the insertion call for conversation 5
is present; with an attachment resolving to file 11 the patched insertion
call is present as well. -/
theorem C9_existing_conversation_reused_witness :
    (createNewSingleMessageHandler exData (some (Callback.caller 7))
      exDbExisting).filter isCreateConversationCall = [] ∧
    MessageRecord.conversation_id
      ⟨1, 5, some "hi", some "hi", none⟩ = 5 ∧
    Event.insertMessageCall ⟨exData.sender.id, 5,
        jsOrStr exData.message exData.messageText, exData.messageText,
        none⟩ ∈
      createNewSingleMessageHandler exData (some (Callback.caller 7))
        exDbExisting ∧
    Event.insertMessageCall ⟨exDataAtt.sender.id, 5,
        jsOrStr exDataAtt.message exDataAtt.messageText,
        exDataAtt.messageText, some 11⟩ ∈
      createNewSingleMessageHandler exDataAtt (some (Callback.caller 7))
        exDbExisting :=
  ⟨(C9_existing_conversation_reused exData exReceiver 5
      (some (Callback.caller 7)) exDbExisting rfl rfl).1,
   (C9_existing_conversation_reused exData exReceiver 5
      (some (Callback.caller 7)) exDbExisting rfl rfl).2.1
     ⟨1, 5, some "hi", some "hi", none⟩ (by decide),
   (C9_existing_conversation_reused exData exReceiver 5
      (some (Callback.caller 7)) exDbExisting rfl rfl).2.2.1 rfl,
   (C9_existing_conversation_reused exDataAtt exReceiver 5
      (some (Callback.caller 7)) exDbExisting rfl rfl).2.2.2
     exAttachment 11 rfl rfl⟩

/-- C10: a CREATE_NEW_MESSAGE dispatch with an empty receivers list is not
rejected: it runs the group handler, which creates a group conversation
whose participant list holds only the sender id; on a successful oracle no
error ack occurs, the message is persisted into the new conversation and
one FIRST_TIME_MESSAGE carrying the conversation named "New Group" is
broadcast. -/
theorem C10_zero_receivers_group_path (data : CreateNewMessageInput)
    (fn : Option Callback) (db : DbOracle) (cid mid : Nat)
    (h0 : data.receivers = [])
    (hc : db.createNewConversationResult = DbResult.ok cid)
    (hm : db.insertMessageResult = DbResult.ok mid) :
    createNewMessageHandler data fn db =
      createNewGroupMessageHandler data fn db ∧
    Event.createConversationCall
        ⟨"group", data.sender.id, data.classroomId⟩ [data.sender.id] ∈
      createNewMessageHandler data fn db ∧
    (createNewMessageHandler data fn db).filter isAckErr = [] ∧
    Event.insertMessageCall
        ⟨data.sender.id, cid, jsOrStr data.message data.messageText,
         data.messageText, attachmentInputId data.attachment⟩ ∈
      createNewMessageHandler data fn db ∧
    (createNewMessageHandler data fn db).filter Event.isEmit =
      [Event.emit (convoChannel cid) EventName.FIRST_TIME_MESSAGE
        (Payload.firstTime
          ⟨data.sender, jsOrStr data.message data.messageText,
           data.messageText, data.createdAt, cid,
           jsOrBool data.canReply true, data.attachment, some mid⟩
          ⟨cid, "group", data.sender.id, data.classroomId,
           some "New Group"⟩)] := by
  have hne : data.receivers.length ≠ 1 := by simp [h0]
  refine ⟨by simp [createNewMessageHandler, hne], ?_, ?_, ?_, ?_⟩
  · simp [createNewMessageHandler, hne, createNewGroupMessageHandler, h0]
  · cases fn <;>
      simp [createNewMessageHandler, hne, createNewGroupMessageHandler, h0,
        hc, hm, ackOkIf, List.filter_cons, List.filter_append, isAckErr]
  · cases ha : data.attachment <;> cases fn <;>
      simp [createNewMessageHandler, hne, createNewGroupMessageHandler, h0,
        hc, hm, ackOkIf, ha, attachmentInputId]
  · cases fn <;>
      simp [createNewMessageHandler, hne, createNewGroupMessageHandler, h0,
        hc, hm, ackOkIf, Event.isEmit, List.filter_cons, List.filter_append]

/-- Witness for C10 at the concrete zero-receiver payload: the group path
runs, creates the conversation over participant list [1] and broadcasts
once with the name "New Group", with no error ack. -/
theorem C10_zero_receivers_group_path_witness :
    createNewMessageHandler exDataZero (some (Callback.caller 7)) exDbNew =
      createNewGroupMessageHandler exDataZero (some (Callback.caller 7))
        exDbNew ∧
    Event.createConversationCall
        ⟨"group", exDataZero.sender.id, exDataZero.classroomId⟩
        [exDataZero.sender.id] ∈
      createNewMessageHandler exDataZero (some (Callback.caller 7))
        exDbNew ∧
    (createNewMessageHandler exDataZero (some (Callback.caller 7))
      exDbNew).filter isAckErr = [] :=
  ⟨(C10_zero_receivers_group_path exDataZero (some (Callback.caller 7))
      exDbNew 31 21 rfl rfl rfl).1,
   (C10_zero_receivers_group_path exDataZero (some (Callback.caller 7))
      exDbNew 31 21 rfl rfl rfl).2.1,
   (C10_zero_receivers_group_path exDataZero (some (Callback.caller 7))
      exDbNew 31 21 rfl rfl rfl).2.2.1⟩

end RemindClone
